import Mathlib

/-!
Verification development for the `fp.push` AngularJS push-notification
service wrapper (repository `fingerproof/ionic-fp-push`).

The repository contains several variants of the same `PushService`:

* `src/unnamed/part_000`  — modelled below in namespace `PartA`
  (`isRegistered = plugin && token`, `unregister` guarded by `isRegistered`,
  badge operations built on `checkPlatform`/`checkPlatforms`);
* `src/unnamed/part_001`  — namespace `PartB`
  (`isRegistered = !!plugin`, `unregister` always clears handle and cache,
  `register` captures the previous token from `unregister`'s resolution);
* `src/unnamed/part_002`  — namespace `PartC`
  (like `PartB`, plus channel operations and badge operations wrapped in
  `cordovaUtils.ifPlatformWhenReady`);
* `src/fp.push/push.service.js` — namespace `PS`
  (`isRegistered = plugin && token`, no rollback on registration failure,
  badge operations gated on registration and iOS with fallback value `0`);
* `src/fp.push/service.push.js` — namespace `SP`
  (like `PartA`, but the success branch of `register` references the
  undeclared identifier `token`).

Native plugin calls (`$cordovaPushV5.initialize/register/unregister/...`,
`plugin.subscribe/...`) are asynchronous collaborators; each operation is
modelled as a pure function from an environment (the outcomes the native
layer would produce during this one call) and a service state to a result,
a successor state, and the trace of native calls performed.  The
`cordovaUtils.whenReady` wrapper only defers execution until the host is
ready; the model describes the post-ready execution.  All promises follow
the standard first-settlement-wins discipline, which the model makes
explicit with a resolve cell (`settleCell`).
-/

/-- A native plugin call, recorded in an operation's trace.  An operation
performing "zero native calls" is one whose trace is `[]`. -/
inductive NativeCall where
  | initCall
  | registerCall
  | unregisterCall
  | getBadge
  | setBadge (n : Int)
  | finish
  | clearAll
  | subscribeCall (topic : String)
  | unsubscribeCall (topic : String)
  | createChannelCall
  | listChannelsCall
  deriving DecidableEq, Repr

/-- Errors surfaced through a promise rejection. `notInitialized` is the
local `PUSH_ERRORS.NOT_INITIALIZED` error produced by `checkRegistration`;
`native e` is an opaque native-layer failure; `refError` is the JavaScript
`ReferenceError` thrown in strict mode when an undeclared identifier is
read (only reachable in the `SP` variant). -/
inductive Err where
  | notInitialized
  | native (e : Nat)
  | refError
  deriving DecidableEq, Repr

/-- Mutable state of the service: the `plugin` handle (the live native
object, `null` when absent) and the single-slot device-token cache stored
under the fixed key `deviceToken`. -/
structure PushState where
  plugin : Option Nat
  cache : Option String
  deriving DecidableEq, Repr

/-- Outcomes the native layer produces during one service call, plus the
platform predicate `ionic.Platform.is(name)`. -/
structure Env where
  platformIs : String → Bool
  initResult : Except Nat Nat
  regResult : Except Nat String
  unregResult : Except Nat Unit
  getBadgeResult : Except Nat Int
  setBadgeResult : Except Nat Unit
  subResult : Except Nat Unit
  unsubResult : Except Nat Unit
  clearResult : Except Nat Unit
  finishResult : Except Nat Unit
  createChannelResult : Except Nat Unit
  listChannelsResult : Except Nat (List String)

instance {ε α : Type} [DecidableEq ε] [DecidableEq α] : DecidableEq (Except ε α) := fun x y =>
  match x, y with
  | Except.ok a, Except.ok b =>
    if h : a = b then isTrue (by rw [h])
    else isFalse (by intro hh; cases hh; exact h rfl)
  | Except.ok _, Except.error _ => isFalse (by intro h; cases h)
  | Except.error _, Except.ok _ => isFalse (by intro h; cases h)
  | Except.error e, Except.error f =>
    if h : e = f then isTrue (by rw [h])
    else isFalse (by intro hh; cases hh; exact h rfl)

/-- Result of one public operation: the settled promise value, the service
state afterwards, and the native calls performed. -/
structure OpResult (α : Type) where
  result : Except Err α
  state : PushState
  trace : List NativeCall
  deriving DecidableEq, Repr

/-- The `{ current, previous, hasChanged }` object resolved by `register`
in the `part_000`/`part_001`/`part_002` variants.  `previous` is `none`
when the JavaScript value is `undefined`. -/
structure RegOutcome where
  current : String
  previous : Option String
  hasChanged : Bool
  deriving DecidableEq, Repr

/-- A `$q` promise's resolution cell: the first settlement wins and every
later `resolve`/`reject` is ignored. -/
def settleCell (cell : Option (Except Err α)) (v : Except Err α) :
    Option (Except Err α) :=
  match cell with
  | some r => some r
  | none => some v

/-- `checkPlatform(name, resolve, fallback)` from the source: returns
`true` when the device runs the given platform; otherwise resolves the
promise with the fallback value and returns `false`. -/
def checkPlatform (env : Env) (name : String) (fallback : α)
    (cell : Option (Except Err α)) : Bool × Option (Except Err α) :=
  if env.platformIs name then (true, cell)
  else (false, settleCell cell (Except.ok fallback))

/-- `checkPlatforms(names, resolve, fallback)` from the source:
`_.some(names, _.partial(checkPlatform, _, resolve, fallback))`.  `_.some`
stops at the first `true`, but every non-matching prefix platform has
already invoked `resolve(fallback)` on the shared promise. -/
def checkPlatforms (env : Env) (names : List String) (fallback : α)
    (cell : Option (Except Err α)) : Bool × Option (Except Err α) :=
  match names with
  | [] => (false, cell)
  | n :: rest =>
    match checkPlatform env n fallback cell with
    | (true, c) => (true, c)
    | (false, c) => checkPlatforms env rest fallback c

/-- The `.catch` rollback shared by the `PartA`/`PartB`/`SP` variants:
`service.unregister().then(function restore() { return $q.reject(error); })`.
If the rollback's `unregister` itself rejects, that rejection wins;
otherwise the original error is re-thrown. -/
def rollbackWith (unreg : Env → PushState → OpResult (Option String))
    (env : Env) (orig : Err) (s : PushState) : OpResult β :=
  let u := unreg env s
  match u.result with
  | Except.error e => { result := Except.error e, state := u.state, trace := u.trace }
  | Except.ok _ => { result := Except.error orig, state := u.state, trace := u.trace }

namespace PartA

/-! Variant `src/unnamed/part_000`. -/

/-- `isRegistered()`: `!!(plugin && service.getDeviceToken())`. -/
def isRegistered (s : PushState) : Bool :=
  s.plugin.isSome && s.cache.isSome

/-- `getDeviceToken()`: the cached token under `deviceToken`, if any. -/
def getDeviceToken (s : PushState) : Option String :=
  s.cache

/-- `unregister()`: a no-op resolving empty when not registered; otherwise
the native unregister call, then `plugin = null` and eviction of the cached
token, resolving with the evicted value (per the source JSDoc, the promise
passes "the device token if any"). -/
def unregister (env : Env) (s : PushState) : OpResult (Option String) :=
  if isRegistered s = false then
    { result := Except.ok none, state := s, trace := [] }
  else
    match env.unregResult with
    | Except.error e =>
      { result := Except.error (Err.native e), state := s,
        trace := [NativeCall.unregisterCall] }
    | Except.ok _ =>
      { result := Except.ok s.cache, state := { plugin := none, cache := none },
        trace := [NativeCall.unregisterCall] }

/-- `register(options)`: implicit `unregister`, native `initialize`
(storing the handle), native `register` (with a transient error listener),
then caching the token and resolving `{ current, previous, hasChanged }`,
where `previous` is read from `service.getDeviceToken()` *after* the
implicit unregister already ran.  Any failure at the initialize or
register step is routed through the rollback. -/
def register (env : Env) (s : PushState) : OpResult RegOutcome :=
  let u := unregister env s
  match u.result with
  | Except.error e => { result := Except.error e, state := u.state, trace := u.trace }
  | Except.ok _ =>
    match env.initResult with
    | Except.error e =>
      let rb : OpResult RegOutcome := rollbackWith unregister env (Err.native e) u.state
      { rb with trace := u.trace ++ [NativeCall.initCall] ++ rb.trace }
    | Except.ok h =>
      let s1 : PushState := { u.state with plugin := some h }
      match env.regResult with
      | Except.error e =>
        let rb : OpResult RegOutcome := rollbackWith unregister env (Err.native e) s1
        { rb with
          trace := u.trace ++ [NativeCall.initCall, NativeCall.registerCall] ++ rb.trace }
      | Except.ok tok =>
        let old := getDeviceToken s1
        { result := Except.ok
            { current := tok, previous := old, hasChanged := decide (some tok ≠ old) },
          state := { s1 with cache := some tok },
          trace := u.trace ++ [NativeCall.initCall, NativeCall.registerCall] }

/-- `subscribe(topic)`: rejects locally with `NOT_INITIALIZED` when not
registered; otherwise one native `plugin.subscribe` call. -/
def subscribe (env : Env) (s : PushState) (topic : String) : OpResult Unit :=
  if isRegistered s = false then
    { result := Except.error Err.notInitialized, state := s, trace := [] }
  else
    { result := match env.subResult with
        | Except.ok _ => Except.ok ()
        | Except.error e => Except.error (Err.native e),
      state := s, trace := [NativeCall.subscribeCall topic] }

/-- `unsubscribe(topic)`: same gating as `subscribe`. -/
def unsubscribe (env : Env) (s : PushState) (topic : String) : OpResult Unit :=
  if isRegistered s = false then
    { result := Except.error Err.notInitialized, state := s, trace := [] }
  else
    { result := match env.unsubResult with
        | Except.ok _ => Except.ok ()
        | Except.error e => Except.error (Err.native e),
      state := s, trace := [NativeCall.unsubscribeCall topic] }

/-- `clearNotifications()`: `checkRegistration(reject) &&
checkPlatforms(['ios','android'], resolve)`; the registration check runs
first and short-circuits, so an unregistered call rejects locally without
evaluating the platform check. -/
def clearNotifications (env : Env) (s : PushState) : OpResult Unit :=
  if isRegistered s = false then
    { result := Except.error Err.notInitialized, state := s, trace := [] }
  else
    match checkPlatforms env ["ios", "android"] () none with
    | (false, cell) =>
      { result := cell.getD (Except.ok ()), state := s, trace := [] }
    | (true, cell) =>
      let res : Except Err Unit := match env.clearResult with
        | Except.ok _ => Except.ok ()
        | Except.error e => Except.error (Err.native e)
      { result := (settleCell cell res).getD res, state := s,
        trace := [NativeCall.clearAll] }

/-- `getBadgeNumber()`: iOS only, fallback `-1`; otherwise one native
`getBadgeNumber` call. -/
def getBadgeNumber (env : Env) (s : PushState) : OpResult Int :=
  match checkPlatform env "ios" (-1 : Int) none with
  | (false, cell) =>
    { result := cell.getD (Except.ok (-1)), state := s, trace := [] }
  | (true, cell) =>
    let res : Except Err Int := match env.getBadgeResult with
      | Except.ok b => Except.ok b
      | Except.error e => Except.error (Err.native e)
    { result := (settleCell cell res).getD res, state := s,
      trace := [NativeCall.getBadge] }

/-- `setBadgeNumber(number)` (default `0` when called with no argument):
`checkPlatforms(['ios','android'], resolve, -1)`, then the native set call
resolving with the argument `number`.  `arg = none` models a call with no
argument. -/
def setBadgeNumber (env : Env) (s : PushState) (arg : Option Int) : OpResult Int :=
  let number := arg.getD 0
  match checkPlatforms env ["ios", "android"] (-1 : Int) none with
  | (false, cell) =>
    { result := cell.getD (Except.ok (-1)), state := s, trace := [] }
  | (true, cell) =>
    let res : Except Err Int := match env.setBadgeResult with
      | Except.ok _ => Except.ok number
      | Except.error e => Except.error (Err.native e)
    { result := (settleCell cell res).getD res, state := s,
      trace := [NativeCall.setBadge number] }

/-- `incrementBadgeNumber(number)` (default `1`): get-then-set,
`service.getBadgeNumber().then(current => service.setBadgeNumber(current + number))`. -/
def incrementBadgeNumber (env : Env) (s : PushState) (arg : Option Int) : OpResult Int :=
  let number := arg.getD 1
  let g := getBadgeNumber env s
  match g.result with
  | Except.error e => { result := Except.error e, state := g.state, trace := g.trace }
  | Except.ok current =>
    let r := setBadgeNumber env g.state (some (current + number))
    { result := r.result, state := r.state, trace := g.trace ++ r.trace }

end PartA

namespace PartB

/-! Variant `src/unnamed/part_001`. -/

/-- `isRegistered()`: `!!plugin` (handle presence only). -/
def isRegistered (s : PushState) : Bool :=
  s.plugin.isSome

/-- `getDeviceToken()`: the cached token under `deviceToken`, if any. -/
def getDeviceToken (s : PushState) : Option String :=
  s.cache

/-- `unregister()`: the native unregister call only when registered, then
unconditionally `plugin = null` and eviction of the cached token, resolving
with the evicted value (per the source JSDoc, "Passing the device token,
if any"). -/
def unregister (env : Env) (s : PushState) : OpResult (Option String) :=
  if isRegistered s then
    match env.unregResult with
    | Except.error e =>
      { result := Except.error (Err.native e), state := s,
        trace := [NativeCall.unregisterCall] }
    | Except.ok _ =>
      { result := Except.ok s.cache, state := { plugin := none, cache := none },
        trace := [NativeCall.unregisterCall] }
  else
    { result := Except.ok s.cache, state := { plugin := none, cache := none },
      trace := [] }

/-- `register(options)`: `var old = undefined`, implicit `unregister`
capturing its resolved token (`if (token) { old = token; }`, so a falsy
empty-string token is not captured), native `initialize`, native
`register`, then caching and `{ current, previous: old, hasChanged }`;
failures at initialize/register roll back through `unregister`. -/
def register (env : Env) (s : PushState) : OpResult RegOutcome :=
  let u := unregister env s
  match u.result with
  | Except.error e => { result := Except.error e, state := u.state, trace := u.trace }
  | Except.ok tokOpt =>
    let old := tokOpt.bind (fun t => if t = "" then none else some t)
    match env.initResult with
    | Except.error e =>
      let rb : OpResult RegOutcome := rollbackWith unregister env (Err.native e) u.state
      { rb with trace := u.trace ++ [NativeCall.initCall] ++ rb.trace }
    | Except.ok h =>
      let s1 : PushState := { u.state with plugin := some h }
      match env.regResult with
      | Except.error e =>
        let rb : OpResult RegOutcome := rollbackWith unregister env (Err.native e) s1
        { rb with
          trace := u.trace ++ [NativeCall.initCall, NativeCall.registerCall] ++ rb.trace }
      | Except.ok tok =>
        { result := Except.ok
            { current := tok, previous := old, hasChanged := decide (some tok ≠ old) },
          state := { s1 with cache := some tok },
          trace := u.trace ++ [NativeCall.initCall, NativeCall.registerCall] }

end PartB

namespace PartC

/-! Variant `src/unnamed/part_002`. -/

/-- `isRegistered()`: `!!plugin` (handle presence only). -/
def isRegistered (s : PushState) : Bool :=
  s.plugin.isSome

/-- `getDeviceToken()`: the cached token under `deviceToken`, if any. -/
def getDeviceToken (s : PushState) : Option String :=
  s.cache

/-- `unregister()` (same body as `part_001`): native unregister only when
registered, then unconditionally clear the handle and evict the cached
token, resolving with the evicted value. -/
def unregister (env : Env) (s : PushState) : OpResult (Option String) :=
  if isRegistered s then
    match env.unregResult with
    | Except.error e =>
      { result := Except.error (Err.native e), state := s,
        trace := [NativeCall.unregisterCall] }
    | Except.ok _ =>
      { result := Except.ok s.cache, state := { plugin := none, cache := none },
        trace := [NativeCall.unregisterCall] }
  else
    { result := Except.ok s.cache, state := { plugin := none, cache := none },
      trace := [] }

/-- `register(options)` (same body as `part_001`). -/
def register (env : Env) (s : PushState) : OpResult RegOutcome :=
  let u := unregister env s
  match u.result with
  | Except.error e => { result := Except.error e, state := u.state, trace := u.trace }
  | Except.ok tokOpt =>
    let old := tokOpt.bind (fun t => if t = "" then none else some t)
    match env.initResult with
    | Except.error e =>
      let rb : OpResult RegOutcome := rollbackWith unregister env (Err.native e) u.state
      { rb with trace := u.trace ++ [NativeCall.initCall] ++ rb.trace }
    | Except.ok h =>
      let s1 : PushState := { u.state with plugin := some h }
      match env.regResult with
      | Except.error e =>
        let rb : OpResult RegOutcome := rollbackWith unregister env (Err.native e) s1
        { rb with
          trace := u.trace ++ [NativeCall.initCall, NativeCall.registerCall] ++ rb.trace }
      | Except.ok tok =>
        { result := Except.ok
            { current := tok, previous := old, hasChanged := decide (some tok ≠ old) },
          state := { s1 with cache := some tok },
          trace := u.trace ++ [NativeCall.initCall, NativeCall.registerCall] }

/-- Modelled from the spec: `cordovaUtils.ifPlatformWhenReady(platforms,
fn, fallback)` — the `fp.utils` collaborator is not part of this
repository's sources.  Per the spec's Readiness Gate contract, after host
readiness the wrapped function runs only when the current platform matches
the allow-list; otherwise the call resolves immediately with the
configured fallback value, without invoking the native call. -/
def ifPlatformWhenReady (env : Env) (names : List String) (fallback : α)
    (body : OpResult α) (s : PushState) : OpResult α :=
  if names.any env.platformIs then body
  else { result := Except.ok fallback, state := s, trace := [] }

/-- `getBadgeNumber()`: `ifPlatformWhenReady(['ios','android'], ..., -1)`
around the native `getBadgeNumber` call. -/
def getBadgeNumber (env : Env) (s : PushState) : OpResult Int :=
  ifPlatformWhenReady env ["ios", "android"] (-1 : Int)
    { result := match env.getBadgeResult with
        | Except.ok b => Except.ok b
        | Except.error e => Except.error (Err.native e),
      state := s, trace := [NativeCall.getBadge] } s

/-- `setBadgeNumber(number)` (default `0`):
`ifPlatformWhenReady(['ios','android'], ..., -1)` around the native set
call, resolving with the argument `number`. -/
def setBadgeNumber (env : Env) (s : PushState) (arg : Option Int) : OpResult Int :=
  let number := arg.getD 0
  ifPlatformWhenReady env ["ios", "android"] (-1 : Int)
    { result := match env.setBadgeResult with
        | Except.ok _ => Except.ok number
        | Except.error e => Except.error (Err.native e),
      state := s, trace := [NativeCall.setBadge number] } s

/-- `incrementBadgeNumber(number)` (default `1`): get-then-set. -/
def incrementBadgeNumber (env : Env) (s : PushState) (arg : Option Int) : OpResult Int :=
  let number := arg.getD 1
  let g := getBadgeNumber env s
  match g.result with
  | Except.error e => { result := Except.error e, state := g.state, trace := g.trace }
  | Except.ok current =>
    let r := setBadgeNumber env g.state (some (current + number))
    { result := r.result, state := r.state, trace := g.trace ++ r.trace }

/-- `createChannel(channel)`: `ifPlatformWhenReady('android', ..., null)`;
resolves `null` (here `none`) off-platform, otherwise one native
`createChannel` call. -/
def createChannel (env : Env) (s : PushState) : OpResult (Option Unit) :=
  ifPlatformWhenReady env ["android"] (none : Option Unit)
    { result := match env.createChannelResult with
        | Except.ok _ => Except.ok (some ())
        | Except.error e => Except.error (Err.native e),
      state := s, trace := [NativeCall.createChannelCall] } s

/-- `listChannels()`: `ifPlatformWhenReady('android', ..., null)`; resolves
`null` (here `none`) off-platform, otherwise one native `listChannels`
call passing the channel list. -/
def listChannels (env : Env) (s : PushState) : OpResult (Option (List String)) :=
  ifPlatformWhenReady env ["android"] (none : Option (List String))
    { result := match env.listChannelsResult with
        | Except.ok cs => Except.ok (some cs)
        | Except.error e => Except.error (Err.native e),
      state := s, trace := [NativeCall.listChannelsCall] } s

end PartC

namespace PS

/-! Variant `src/fp.push/push.service.js`. -/

/-- `isRegistered()`: `!!(plugin && service.getDeviceToken())`. -/
def isRegistered (s : PushState) : Bool :=
  s.plugin.isSome && s.cache.isSome

/-- `getDeviceToken()`: the cached token under `deviceToken`, if any. -/
def getDeviceToken (s : PushState) : Option String :=
  s.cache

/-- `unregister()` (same shape as `part_000`): a no-op when not
registered; otherwise native unregister, then clear the handle and evict
the token. -/
def unregister (env : Env) (s : PushState) : OpResult (Option String) :=
  if isRegistered s = false then
    { result := Except.ok none, state := s, trace := [] }
  else
    match env.unregResult with
    | Except.error e =>
      { result := Except.error (Err.native e), state := s,
        trace := [NativeCall.unregisterCall] }
    | Except.ok _ =>
      { result := Except.ok s.cache, state := { plugin := none, cache := none },
        trace := [NativeCall.unregisterCall] }

/-- `register(options)`: implicit `unregister`, native `initialize`
(storing the handle), then a deferred settled by `$cordovaPushV5.register()`
on success or by the transient `plugin.on('error', ...)` listener on
failure (the only rejection route, modelled as `regResult = error`), then
caching the token and resolving it.  This variant has **no** `.catch`
rollback: a failure after `initialize` leaves the handle set. -/
def register (env : Env) (s : PushState) : OpResult String :=
  let u := unregister env s
  match u.result with
  | Except.error e => { result := Except.error e, state := u.state, trace := u.trace }
  | Except.ok _ =>
    match env.initResult with
    | Except.error e =>
      { result := Except.error (Err.native e), state := u.state,
        trace := u.trace ++ [NativeCall.initCall] }
    | Except.ok h =>
      let s1 : PushState := { u.state with plugin := some h }
      match env.regResult with
      | Except.error e =>
        { result := Except.error (Err.native e), state := s1,
          trace := u.trace ++ [NativeCall.initCall, NativeCall.registerCall] }
      | Except.ok tok =>
        { result := Except.ok tok, state := { s1 with cache := some tok },
          trace := u.trace ++ [NativeCall.initCall, NativeCall.registerCall] }

/-- `getBadgeNumber()`: `checkMethodAvailability(reject, resolve, 0)` =
`checkRegistration(reject) && checkIOS(resolve, 0)` — registration first
(rejecting `NOT_INITIALIZED`), then iOS with fallback value `0`; otherwise
one native call through the plugin handle. -/
def getBadgeNumber (env : Env) (s : PushState) : OpResult Int :=
  if isRegistered s = false then
    { result := Except.error Err.notInitialized, state := s, trace := [] }
  else if env.platformIs "ios" = false then
    { result := Except.ok 0, state := s, trace := [] }
  else
    { result := match env.getBadgeResult with
        | Except.ok b => Except.ok b
        | Except.error e => Except.error (Err.native e),
      state := s, trace := [NativeCall.getBadge] }

/-- `setBadgeNumber(number)` (default `0`): same
`checkMethodAvailability(reject, resolve, 0)` gating, then the native set
call resolving with the argument `number`. -/
def setBadgeNumber (env : Env) (s : PushState) (arg : Option Int) : OpResult Int :=
  let number := arg.getD 0
  if isRegistered s = false then
    { result := Except.error Err.notInitialized, state := s, trace := [] }
  else if env.platformIs "ios" = false then
    { result := Except.ok 0, state := s, trace := [] }
  else
    { result := match env.setBadgeResult with
        | Except.ok _ => Except.ok number
        | Except.error e => Except.error (Err.native e),
      state := s, trace := [NativeCall.setBadge number] }

/-- `notificationHandled()`: `checkMethodAvailability(reject, resolve)` —
registration first, then iOS resolving empty as fallback; otherwise one
native `plugin.finish` call. -/
def notificationHandled (env : Env) (s : PushState) : OpResult Unit :=
  if isRegistered s = false then
    { result := Except.error Err.notInitialized, state := s, trace := [] }
  else if env.platformIs "ios" = false then
    { result := Except.ok (), state := s, trace := [] }
  else
    { result := match env.finishResult with
        | Except.ok _ => Except.ok ()
        | Except.error e => Except.error (Err.native e),
      state := s, trace := [NativeCall.finish] }

end PS

namespace SP

/-! Variant `src/fp.push/service.push.js`. -/

/-- The `{ value, hasChanged }` object this variant's `register` documents
(but, as proved below, never produces). -/
structure SPRegOutcome where
  value : String
  hasChanged : Bool
  deriving DecidableEq, Repr

/-- `isRegistered()`: `!!(plugin && service.getDeviceToken())`. -/
def isRegistered (s : PushState) : Bool :=
  s.plugin.isSome && s.cache.isSome

/-- `getDeviceToken()`: the cached token under `deviceToken`, if any. -/
def getDeviceToken (s : PushState) : Option String :=
  s.cache

/-- `unregister()` (same shape as `part_000`). -/
def unregister (env : Env) (s : PushState) : OpResult (Option String) :=
  if isRegistered s = false then
    { result := Except.ok none, state := s, trace := [] }
  else
    match env.unregResult with
    | Except.error e =>
      { result := Except.error (Err.native e), state := s,
        trace := [NativeCall.unregisterCall] }
    | Except.ok _ =>
      { result := Except.ok s.cache, state := { plugin := none, cache := none },
        trace := [NativeCall.unregisterCall] }

/-- `register(options)`: like `part_000`, but the success branch is

```js
}).then(function (deviceToken) {
  var stored = service.getDeviceToken();
  getCache().put(DEVICE_TOKEN_CACHE_KEY, token);
  return { value: deviceToken, hasChanged: deviceToken !== stored };
})
```

where `token` is not declared anywhere in scope (the parameter is
`deviceToken`), so under the file's `'use strict'` the caching statement
throws a `ReferenceError` before the cache is written and before the
result object is built; the thrown error is captured by the trailing
`.catch`, which unregisters and re-rejects it.  Modelled as `Err.refError`
routed through the rollback. -/
def register (env : Env) (s : PushState) : OpResult SPRegOutcome :=
  let u := unregister env s
  match u.result with
  | Except.error e => { result := Except.error e, state := u.state, trace := u.trace }
  | Except.ok _ =>
    match env.initResult with
    | Except.error e =>
      let rb : OpResult SPRegOutcome := rollbackWith unregister env (Err.native e) u.state
      { rb with trace := u.trace ++ [NativeCall.initCall] ++ rb.trace }
    | Except.ok h =>
      let s1 : PushState := { u.state with plugin := some h }
      match env.regResult with
      | Except.error e =>
        let rb : OpResult SPRegOutcome := rollbackWith unregister env (Err.native e) s1
        { rb with
          trace := u.trace ++ [NativeCall.initCall, NativeCall.registerCall] ++ rb.trace }
      | Except.ok _tok =>
        let rb : OpResult SPRegOutcome := rollbackWith unregister env Err.refError s1
        { rb with
          trace := u.trace ++ [NativeCall.initCall, NativeCall.registerCall] ++ rb.trace }

end SP

namespace Relay

/-! The notification/error event relay shared by the `part_000`/`part_001`
variants:

```js
function listenTo(event, handler) {
  return $rootScope.$on(event, _.rearg(handler, 1, 0));
}
service.onNotification = _.partial(listenTo, PUSH_EVENTS.ON_NOTIFICATION);
service.onError = _.partial(listenTo, PUSH_EVENTS.ON_ERROR);
```

with the event names from `src/fp.push/push.js`. -/

/-- The `$event` metadata object the scope passes to listeners. -/
structure EventMeta where
  name : String
  id : Nat
  deriving DecidableEq, Repr

/-- A listener as stored on the root scope: per the Angular convention the
source relies on (its JSDoc: `listenTo` attaches a listener "passing
`$event` as the handler second parameter" after rearranging), the scope
invokes a stored listener with the event metadata first and the emitted
payload second.  `α` is the listener's return type, used to observe which
arguments a handler received. -/
def Listener (α : Type) : Type := EventMeta → String → α

/-- Modelled from the spec: the event-bus collaborator (`$rootScope`, not
part of this repository's sources) "exposes subscribe-with-handler /
unsubscribe primitives keyed by string event names".  Listeners carry a
unique id so the returned deregistration function can remove exactly the
listener it registered. -/
structure Scope (α : Type) where
  listeners : List (Nat × String × Listener α)
  nextId : Nat

/-- `$rootScope.$on(event, listener)`: appends the listener under the
event name and returns (the id captured by) the deregistration function. -/
def scopeOn (sc : Scope α) (event : String) (l : Listener α) : Scope α × Nat :=
  ({ listeners := sc.listeners ++ [(sc.nextId, event, l)], nextId := sc.nextId + 1 },
   sc.nextId)

/-- Calling the deregistration function returned by `$on`: removes the
listener with the given id, leaving all others in place. -/
def scopeOff (sc : Scope α) (i : Nat) : Scope α :=
  { sc with listeners := sc.listeners.filter (fun x => x.1 ≠ i) }

/-- Broadcasting an event: every listener stored under this event name is
invoked, in registration order, with the event metadata and the payload. -/
def fire (sc : Scope α) (event : String) (meta : EventMeta) (payload : String) :
    List α :=
  (sc.listeners.filter (fun x => x.2.1 = event)).map (fun x => x.2.2 meta payload)

/-- `PUSH_EVENTS.ON_NOTIFICATION` from `src/fp.push/push.js`. -/
def onNotificationEvent : String := "$cordovaPushV5:notificationReceived"

/-- `PUSH_EVENTS.ON_ERROR` from `src/fp.push/push.js`. -/
def onErrorEvent : String := "$cordovaPushV5:errorOccurred"

/-- `listenTo(event, handler)`: registers `_.rearg(handler, 1, 0)` — the
stored listener swaps its two arguments, so the application handler
receives the payload first and the `$event` metadata second. -/
def listenTo (sc : Scope α) (event : String) (handler : String → EventMeta → α) :
    Scope α × Nat :=
  scopeOn sc event (fun meta payload => handler payload meta)

/-- `service.onNotification(handler)`: `listenTo` at the fixed
notification event identifier. -/
def onNotification (sc : Scope α) (handler : String → EventMeta → α) :
    Scope α × Nat :=
  listenTo sc onNotificationEvent handler

/-- `service.onError(handler)`: `listenTo` at the fixed error event
identifier. -/
def onError (sc : Scope α) (handler : String → EventMeta → α) :
    Scope α × Nat :=
  listenTo sc onErrorEvent handler

end Relay

/-! Concrete environments used by counterexamples and witnesses. -/

/-- An iOS device whose native calls all succeed. -/
def iosEnv : Env where
  platformIs := fun n => decide (n = "ios")
  initResult := Except.ok 7
  regResult := Except.ok "tok"
  unregResult := Except.ok ()
  getBadgeResult := Except.ok 4
  setBadgeResult := Except.ok ()
  subResult := Except.ok ()
  unsubResult := Except.ok ()
  clearResult := Except.ok ()
  finishResult := Except.ok ()
  createChannelResult := Except.ok ()
  listChannelsResult := Except.ok []

/-- An Android device whose native calls all succeed. -/
def androidEnv : Env :=
  { iosEnv with platformIs := fun n => decide (n = "android") }

/-- A device on no supported platform (e.g. a desktop browser). -/
def browserEnv : Env :=
  { iosEnv with platformIs := fun _ => false }

/-- C3: in the `src/fp.push/service.push.js` variant, the success branch
of `register()` reads the undeclared identifier `token` (the bound
parameter is `deviceToken`), which throws under strict mode; hence
`register()` never fulfils with its documented `{ value, hasChanged }`
result — every path rejects, and an otherwise-successful registration
(native initialize and register both succeeding, the rollback's native
unregister succeeding) is diverted into the rollback path and rejects
with the `ReferenceError`. -/
theorem c3_sp_register_never_fulfils (env : Env) (s : PushState) :
    (SP.register env s).result.isOk = false
      ∧ (env.unregResult = Except.ok () → env.initResult.isOk = true →
          env.regResult.isOk = true →
          (SP.register env s).result = Except.error Err.refError) := by
  rcases s with ⟨p, c⟩
  rcases env with ⟨pf, ir, rr, ur, gb, sb, sr, usr, cr, fr, ccr, lcr⟩
  constructor
  · rcases ir with e | h <;> rcases rr with e2 | tok <;> rcases ur with e3 | u <;>
      cases p <;> cases c <;>
      simp [SP.register, SP.unregister, rollbackWith, SP.isRegistered,
        Except.isOk, Except.toBool]
  · intro hu hi hr
    rcases ir with e | h
    · simp [Except.isOk, Except.toBool] at hi
    rcases rr with e2 | tok
    · simp [Except.isOk, Except.toBool] at hr
    dsimp only at hu
    subst hu
    cases p <;> cases c <;>
      simp [SP.register, SP.unregister, rollbackWith, SP.isRegistered]

/-- C3 witness: at a concrete environment where native initialize and
register succeed, `register()` still rejects, with the `ReferenceError`. -/
theorem c3_sp_register_never_fulfils_witness :
    (SP.register iosEnv ⟨none, none⟩).result.isOk = false
      ∧ (SP.register iosEnv ⟨none, none⟩).result = Except.error Err.refError :=
  ⟨(c3_sp_register_never_fulfils iosEnv ⟨none, none⟩).1,
   (c3_sp_register_never_fulfils iosEnv ⟨none, none⟩).2 rfl rfl rfl⟩

/-- C1 counterexample: in `part_000`, a `register()` from the fresh state
(no handle, no cached token) that fails at the native register step ends
with the plugin handle still set — the rollback's `unregister` is a no-op
because `isRegistered()` is false without a cached token — contradicting
the claim that the plugin handle is cleared after every failed
`register()`. -/
theorem c1_counterexample :
    (PartA.register { iosEnv with regResult := Except.error 3 } ⟨none, none⟩).result
        = Except.error (Err.native 3)
      ∧ (PartA.register { iosEnv with
          regResult := Except.error 3 } ⟨none, none⟩).state.plugin = some 7
      ∧ (PartA.register { iosEnv with
          regResult := Except.error 3 } ⟨none, none⟩).state.plugin ≠ none :=
  ⟨rfl, rfl, by decide⟩

/-- C1 amended: in `part_000`, a `register()` that fails at the native
initialize or register step (with the rollback's native unregister
succeeding, from a state with no stale token) rejects with the original
error, and afterwards `isRegistered()` is false and `getDeviceToken()` is
absent; the plugin handle, however, is not always cleared (see the
counterexample). -/
theorem c1_register_failure_rollback (env : Env) (s : PushState) (e : Nat)
    (hu : env.unregResult = Except.ok ())
    (hclean : s.cache = none ∨ PartA.isRegistered s = true)
    (hfail : env.initResult = Except.error e ∨
      (env.initResult.isOk = true ∧ env.regResult = Except.error e)) :
    (PartA.register env s).result = Except.error (Err.native e)
      ∧ PartA.getDeviceToken (PartA.register env s).state = none
      ∧ PartA.isRegistered (PartA.register env s).state = false := by
  rcases s with ⟨p, c⟩
  rcases env with ⟨pf, ir, rr, ur, gb, sb, sr, usr, cr, fr, ccr, lcr⟩
  dsimp only at hu hfail
  subst hu
  rcases hfail with hinit | ⟨hik, hreg⟩
  · subst hinit
    cases p <;> cases c <;>
      simp_all [PartA.register, PartA.unregister, rollbackWith,
        PartA.isRegistered, PartA.getDeviceToken]
  · rcases ir with e2 | h
    · simp [Except.isOk, Except.toBool] at hik
    subst hreg
    cases p <;> cases c <;>
      simp_all [PartA.register, PartA.unregister, rollbackWith,
        PartA.isRegistered, PartA.getDeviceToken]

/-- C1 witness: the amended rollback property at a concrete failing
environment (native register fails with error 3). -/
theorem c1_register_failure_rollback_witness :
    (PartA.register { iosEnv with regResult := Except.error 3 } ⟨none, none⟩).result
        = Except.error (Err.native 3)
      ∧ PartA.getDeviceToken
          (PartA.register { iosEnv with
            regResult := Except.error 3 } ⟨none, none⟩).state = none
      ∧ PartA.isRegistered
          (PartA.register { iosEnv with
            regResult := Except.error 3 } ⟨none, none⟩).state = false :=
  c1_register_failure_rollback _ _ 3 rfl (Or.inl rfl) (Or.inr ⟨rfl, rfl⟩)

/-- C2 counterexample: in `part_000`, starting Registered with cached
token "t" and re-registering successfully with the same native token "t"
yields `{ current: "t", previous: undefined, hasChanged: true }` — not
`{ current: "t", previous: "t", hasChanged: false }` as claimed — because
`previous` is read from the cache after the implicit unregister already
evicted it. -/
theorem c2_counterexample :
    (PartA.register { iosEnv with regResult := Except.ok "t" } ⟨some 1, some "t"⟩).result
        = Except.ok { current := "t", previous := none, hasChanged := true }
      ∧ (PartA.register { iosEnv with
          regResult := Except.ok "t" } ⟨some 1, some "t"⟩).result
        ≠ Except.ok { current := "t", previous := some "t", hasChanged := false } :=
  ⟨rfl, by decide⟩

/-- C2 amended: re-registering from a Registered state with cached token
`t1` and native token `t2` resolves, in `part_001`, to
`{ current: t2, previous: t1, hasChanged: t2 ≠ t1 }` (the previous token
is captured from the implicit unregister's resolution); in `part_000`,
`previous` is `undefined` and `hasChanged` is `true` even when the native
layer returns the same token twice. -/
theorem c2_reregister_previous_token (env : Env) (ph h2 : Nat) (t1 t2 : String)
    (hu : env.unregResult = Except.ok ())
    (hi : env.initResult = Except.ok h2)
    (hr : env.regResult = Except.ok t2)
    (ht1 : t1 ≠ "") :
    (PartB.register env ⟨some ph, some t1⟩).result
        = Except.ok { current := t2, previous := some t1,
                      hasChanged := decide (t2 ≠ t1) }
      ∧ (PartA.register env ⟨some ph, some t1⟩).result
        = Except.ok { current := t2, previous := none, hasChanged := true } := by
  rcases env with ⟨pf, ir, rr, ur, gb, sb, sr, usr, cr, fr, ccr, lcr⟩
  dsimp only at hu hi hr
  subst hu; subst hi; subst hr
  constructor
  · simp [PartB.register, PartB.unregister, PartB.isRegistered, rollbackWith, ht1]
  · simp [PartA.register, PartA.unregister, PartA.isRegistered,
      PartA.getDeviceToken, rollbackWith]

/-- C2 witness: the amended re-registration outcomes at concrete tokens
(previously "a", natively "b"). -/
theorem c2_reregister_previous_token_witness :
    (PartB.register { iosEnv with regResult := Except.ok "b" } ⟨some 1, some "a"⟩).result
        = Except.ok { current := "b", previous := some "a",
                      hasChanged := decide (("b" : String) ≠ "a") }
      ∧ (PartA.register { iosEnv with
          regResult := Except.ok "b" } ⟨some 1, some "a"⟩).result
        = Except.ok { current := "b", previous := none, hasChanged := true } :=
  c2_reregister_previous_token _ 1 7 "a" "b" rfl rfl rfl (by decide)

/-- C4: every operation requiring Registered state — `subscribe`,
`unsubscribe` and `clearNotifications` in `part_000`, and the
registration-gated badge/finish operations of `push.service.js` — when
invoked while Unregistered rejects with the local `NOT_INITIALIZED`
error, performs zero native plugin calls, and leaves the handle and
cached token unchanged. -/
theorem c4_unregistered_ops_reject (env : Env) (s : PushState)
    (topic : String) (arg : Option Int)
    (hA : PartA.isRegistered s = false) (hP : PS.isRegistered s = false) :
    PartA.subscribe env s topic = ⟨Except.error Err.notInitialized, s, []⟩
      ∧ PartA.unsubscribe env s topic = ⟨Except.error Err.notInitialized, s, []⟩
      ∧ PartA.clearNotifications env s = ⟨Except.error Err.notInitialized, s, []⟩
      ∧ PS.getBadgeNumber env s = ⟨Except.error Err.notInitialized, s, []⟩
      ∧ PS.setBadgeNumber env s arg = ⟨Except.error Err.notInitialized, s, []⟩
      ∧ PS.notificationHandled env s = ⟨Except.error Err.notInitialized, s, []⟩ := by
  refine ⟨?_, ?_, ?_, ?_, ?_, ?_⟩ <;>
    simp [PartA.subscribe, PartA.unsubscribe, PartA.clearNotifications,
      PS.getBadgeNumber, PS.setBadgeNumber, PS.notificationHandled, hA, hP]

/-- C5 counterexample: in `part_002`, `unregister()` invoked while already
Unregistered (no handle) but with a stale cached token is not a no-op: it
skips the native call yet evicts the cached token and resolves with it
rather than resolving empty. -/
theorem c5_counterexample :
    PartC.isRegistered ⟨none, some "stale"⟩ = false
      ∧ PartC.unregister iosEnv ⟨none, some "stale"⟩
        = ⟨Except.ok (some "stale"), ⟨none, none⟩, []⟩
      ∧ (PartC.unregister iosEnv ⟨none, some "stale"⟩).result ≠ Except.ok none :=
  ⟨rfl, rfl, by decide⟩

/-- C5 amended: in `part_000`, `unregister()` while Unregistered is a pure
no-op resolving empty with no native call and no state change; in
`part_002` it still skips the native call but unconditionally clears the
handle and evicts any cached token, resolving with the evicted value.  In
both variants, any `register()` followed by an `unregister()` whose native
unregister succeeds (from a state with no stale token, for `part_000`)
ends Unregistered with `getDeviceToken()` absent. -/
theorem c5_register_then_unregister (env env2 : Env) (s : PushState)
    (hu2 : env2.unregResult = Except.ok ())
    (hclean : s.cache.isSome = true → s.plugin.isSome = true) :
    (PartA.isRegistered s = false →
        PartA.unregister env s = ⟨Except.ok none, s, []⟩)
      ∧ PartA.isRegistered
          (PartA.unregister env2 (PartA.register env s).state).state = false
      ∧ (PartA.unregister env2 (PartA.register env s).state).state.cache = none
      ∧ (PartC.isRegistered s = false →
          PartC.unregister env s = ⟨Except.ok s.cache, ⟨none, none⟩, []⟩)
      ∧ (PartC.unregister env2 (PartC.register env s).state).state
          = ⟨none, none⟩ := by
  rcases s with ⟨p, c⟩
  rcases env with ⟨pf, ir, rr, ur, gb, sb, sr, usr, cr, fr, ccr, lcr⟩
  rcases env2 with ⟨pf2, ir2, rr2, ur2, gb2, sb2, sr2, usr2, cr2, fr2, ccr2, lcr2⟩
  dsimp only at hu2 hclean
  subst hu2
  refine ⟨?_, ?_, ?_, ?_, ?_⟩ <;>
    cases p <;> cases c <;>
      rcases ir with e1 | h <;> rcases rr with e2 | tok <;> rcases ur with e3 | u3 <;>
        simp_all [PartA.register, PartA.unregister, PartA.isRegistered,
          PartA.getDeviceToken, PartC.register, PartC.unregister,
          PartC.isRegistered, rollbackWith]

/-- C5 witness: at a concrete clean starting state with all native calls
succeeding, `unregister` while Unregistered is a no-op and
register-then-unregister ends Unregistered without a token. -/
theorem c5_register_then_unregister_witness :
    PartA.unregister iosEnv ⟨none, none⟩ = ⟨Except.ok none, ⟨none, none⟩, []⟩
      ∧ PartA.isRegistered
          (PartA.unregister iosEnv (PartA.register iosEnv ⟨none, none⟩).state).state
        = false
      ∧ (PartC.unregister iosEnv (PartC.register iosEnv ⟨none, none⟩).state).state
        = ⟨none, none⟩ :=
  ⟨(c5_register_then_unregister iosEnv iosEnv ⟨none, none⟩ rfl (by simp)).1 rfl,
   (c5_register_then_unregister iosEnv iosEnv ⟨none, none⟩ rfl (by simp)).2.1,
   (c5_register_then_unregister iosEnv iosEnv ⟨none, none⟩ rfl (by simp)).2.2.2.2⟩

/-- C6 counterexample: in `push.service.js`, `getBadgeNumber()` on a
non-iOS platform (with the service registered) resolves with the fallback
`0`, not the claimed sentinel `-1`. -/
theorem c6_counterexample :
    PS.isRegistered ⟨some 1, some "t"⟩ = true
      ∧ PS.getBadgeNumber androidEnv ⟨some 1, some "t"⟩
        = ⟨Except.ok 0, ⟨some 1, some "t"⟩, []⟩
      ∧ (PS.getBadgeNumber androidEnv ⟨some 1, some "t"⟩).result
        ≠ Except.ok (-1) :=
  ⟨rfl, rfl, by decide⟩

/-- C6 amended: on a platform outside the allow-list, `getBadgeNumber` and
`setBadgeNumber` resolve `-1` with zero native calls in `part_000` and
`part_002`, and `createChannel`/`listChannels` resolve `null` with zero
native calls in `part_002`; in `push.service.js`, however, the badge
operations are registration-gated and their off-platform fallback is `0`,
not `-1` (still with zero native calls). -/
theorem c6_platform_fallbacks (env : Env) (s : PushState) (arg : Option Int)
    (hios : env.platformIs "ios" = false)
    (hand : env.platformIs "android" = false) :
    PartA.getBadgeNumber env s = ⟨Except.ok (-1), s, []⟩
      ∧ PartA.setBadgeNumber env s arg = ⟨Except.ok (-1), s, []⟩
      ∧ PartC.getBadgeNumber env s = ⟨Except.ok (-1), s, []⟩
      ∧ PartC.setBadgeNumber env s arg = ⟨Except.ok (-1), s, []⟩
      ∧ PartC.createChannel env s = ⟨Except.ok none, s, []⟩
      ∧ PartC.listChannels env s = ⟨Except.ok none, s, []⟩
      ∧ (PS.isRegistered s = true →
          PS.getBadgeNumber env s = ⟨Except.ok 0, s, []⟩
            ∧ PS.setBadgeNumber env s arg = ⟨Except.ok 0, s, []⟩) := by
  refine ⟨?_, ?_, ?_, ?_, ?_, ?_, fun hreg => ⟨?_, ?_⟩⟩ <;>
    simp_all [PartA.getBadgeNumber, PartA.setBadgeNumber, checkPlatform,
      checkPlatforms, settleCell, PartC.getBadgeNumber, PartC.setBadgeNumber,
      PartC.createChannel, PartC.listChannels, PartC.ifPlatformWhenReady,
      PS.getBadgeNumber, PS.setBadgeNumber]

/-- C6 witness: the fallbacks at a concrete unsupported platform, with the
`push.service.js` deviation at a registered state. -/
theorem c6_platform_fallbacks_witness :
    PartA.getBadgeNumber browserEnv ⟨some 1, some "t"⟩
        = ⟨Except.ok (-1), ⟨some 1, some "t"⟩, []⟩
      ∧ PartC.listChannels browserEnv ⟨some 1, some "t"⟩
        = ⟨Except.ok none, ⟨some 1, some "t"⟩, []⟩
      ∧ PS.getBadgeNumber browserEnv ⟨some 1, some "t"⟩
        = ⟨Except.ok 0, ⟨some 1, some "t"⟩, []⟩ :=
  ⟨(c6_platform_fallbacks browserEnv ⟨some 1, some "t"⟩ none rfl rfl).1,
   (c6_platform_fallbacks browserEnv ⟨some 1, some "t"⟩ none rfl rfl).2.2.2.2.2.1,
   ((c6_platform_fallbacks browserEnv ⟨some 1, some "t"⟩ none rfl rfl).2.2.2.2.2.2
     rfl).1⟩

/-- C7 counterexample: in `push.service.js`, starting from the fresh state
(which satisfies the token-iff-handle invariant), a `register()` that
fails at the native register step completes (rejects) leaving the handle
set and no token cached — the invariant does not hold after every
completed operation. -/
theorem c7_counterexample :
    ((⟨none, none⟩ : PushState).cache.isSome
        = (⟨none, none⟩ : PushState).plugin.isSome)
      ∧ (PS.register { iosEnv with regResult := Except.error 3 } ⟨none, none⟩).result
        = Except.error (Err.native 3)
      ∧ (PS.register { iosEnv with regResult := Except.error 3 } ⟨none, none⟩).state
        = ⟨some 7, none⟩
      ∧ ¬ ((PS.register { iosEnv with
            regResult := Except.error 3 } ⟨none, none⟩).state.cache.isSome
          = (PS.register { iosEnv with
            regResult := Except.error 3 } ⟨none, none⟩).state.plugin.isSome) :=
  ⟨rfl, rfl, rfl, by decide⟩

/-- C7 amended: in `push.service.js`, `isRegistered()` is exactly "handle
present and token cached"; the token-iff-handle invariant is preserved by
`unregister`, by the state-preserving badge/finish operations, and by any
`register()` whose native register step succeeds — but not by a
`register()` failing after initialize (see the counterexample). -/
theorem c7_invariant (env : Env) (s : PushState) (arg : Option Int)
    (hinv : s.cache.isSome = s.plugin.isSome) :
    PS.isRegistered s = (s.plugin.isSome && s.cache.isSome)
      ∧ ((PS.unregister env s).state.cache.isSome
          = (PS.unregister env s).state.plugin.isSome)
      ∧ (env.regResult.isOk = true →
          (PS.register env s).state.cache.isSome
            = (PS.register env s).state.plugin.isSome)
      ∧ (PS.getBadgeNumber env s).state = s
      ∧ (PS.setBadgeNumber env s arg).state = s
      ∧ (PS.notificationHandled env s).state = s := by
  rcases s with ⟨p, c⟩
  rcases env with ⟨pf, ir, rr, ur, gb, sb, sr, usr, cr, fr, ccr, lcr⟩
  dsimp only at hinv
  refine ⟨rfl, ?_, ?_, ?_, ?_, ?_⟩
  · cases p <;> cases c <;> rcases ur with e | u <;>
      simp_all [PS.unregister, PS.isRegistered]
  · intro hrk
    rcases rr with e | tok
    · simp [Except.isOk, Except.toBool] at hrk
    cases p <;> cases c <;> rcases ur with e | u <;> rcases ir with e2 | h <;>
      simp_all [PS.register, PS.unregister, PS.isRegistered]
  · cases hpf : pf "ios" <;> rcases gb with e | b <;> cases p <;> cases c <;>
      simp_all [PS.getBadgeNumber, PS.isRegistered]
  · cases hpf : pf "ios" <;> rcases sb with e | u <;> cases p <;> cases c <;>
      simp_all [PS.setBadgeNumber, PS.isRegistered]
  · cases hpf : pf "ios" <;> rcases fr with e | u <;> cases p <;> cases c <;>
      simp_all [PS.notificationHandled, PS.isRegistered]

/-- C7 witness: the preserved invariant clauses at a concrete environment
and registered state. -/
theorem c7_invariant_witness :
    PS.isRegistered ⟨some 1, some "t"⟩
        = ((some 1 : Option Nat).isSome && (some "t" : Option String).isSome)
      ∧ ((PS.unregister iosEnv ⟨some 1, some "t"⟩).state.cache.isSome
          = (PS.unregister iosEnv ⟨some 1, some "t"⟩).state.plugin.isSome)
      ∧ ((PS.register iosEnv ⟨some 1, some "t"⟩).state.cache.isSome
          = (PS.register iosEnv ⟨some 1, some "t"⟩).state.plugin.isSome) :=
  ⟨(c7_invariant iosEnv ⟨some 1, some "t"⟩ none rfl).1,
   (c7_invariant iosEnv ⟨some 1, some "t"⟩ none rfl).2.1,
   (c7_invariant iosEnv ⟨some 1, some "t"⟩ none rfl).2.2.1 rfl⟩

/-- C8 counterexample: in `part_000`, `setBadgeNumber(5)` on Android — a
supported platform — performs the native set with `5` but resolves with
`-1`, because `checkPlatforms` already resolved the promise with the
fallback during its non-matching iOS check. -/
theorem c8_counterexample :
    PartA.setBadgeNumber androidEnv ⟨none, none⟩ (some 5)
        = ⟨Except.ok (-1), ⟨none, none⟩, [NativeCall.setBadge 5]⟩
      ∧ (PartA.setBadgeNumber androidEnv ⟨none, none⟩ (some 5)).result
        ≠ Except.ok 5 :=
  ⟨rfl, by decide⟩

/-- C8 amended: on iOS, `setBadgeNumber()` with no argument sets the badge
to `0` and resolves `0`, `setBadgeNumber(n)` resolves with the argument
`n`, and `incrementBadgeNumber()` with no argument reads the current badge
`b` and sets `b + 1`; on Android, `setBadgeNumber(n)` still performs the
native set with `n` but resolves `-1` (premature fallback resolution). -/
theorem c8_badge_defaults (env : Env) (s : PushState) (n b : Int)
    (hios : env.platformIs "ios" = true)
    (hset : env.setBadgeResult = Except.ok ())
    (hget : env.getBadgeResult = Except.ok b) :
    PartA.setBadgeNumber env s none = ⟨Except.ok 0, s, [NativeCall.setBadge 0]⟩
      ∧ PartA.setBadgeNumber env s (some n)
        = ⟨Except.ok n, s, [NativeCall.setBadge n]⟩
      ∧ PartA.incrementBadgeNumber env s none
        = ⟨Except.ok (b + 1), s, [NativeCall.getBadge, NativeCall.setBadge (b + 1)]⟩
      ∧ (∀ env2 : Env, env2.platformIs "ios" = false →
          env2.platformIs "android" = true →
          env2.setBadgeResult = Except.ok () →
          PartA.setBadgeNumber env2 s (some n)
            = ⟨Except.ok (-1), s, [NativeCall.setBadge n]⟩) := by
  refine ⟨?_, ?_, ?_, fun env2 h1 h2 h3 => ?_⟩
  · simp [PartA.setBadgeNumber, checkPlatform, checkPlatforms, settleCell,
      hios, hset]
  · simp [PartA.setBadgeNumber, checkPlatform, checkPlatforms, settleCell,
      hios, hset]
  · simp [PartA.setBadgeNumber, PartA.getBadgeNumber,
      PartA.incrementBadgeNumber, checkPlatform, checkPlatforms, settleCell,
      hios, hset, hget]
  · simp [PartA.setBadgeNumber, checkPlatform, checkPlatforms, settleCell,
      h1, h2, h3]

/-- C8 witness: the badge defaults at concrete environments (current badge
4 on iOS; the Android deviation at argument 5). -/
theorem c8_badge_defaults_witness :
    PartA.setBadgeNumber iosEnv ⟨none, none⟩ none
        = ⟨Except.ok 0, ⟨none, none⟩, [NativeCall.setBadge 0]⟩
      ∧ PartA.incrementBadgeNumber iosEnv ⟨none, none⟩ none
        = ⟨Except.ok (4 + 1), ⟨none, none⟩,
           [NativeCall.getBadge, NativeCall.setBadge (4 + 1)]⟩
      ∧ PartA.setBadgeNumber androidEnv ⟨none, none⟩ (some 5)
        = ⟨Except.ok (-1), ⟨none, none⟩, [NativeCall.setBadge 5]⟩ :=
  ⟨(c8_badge_defaults iosEnv ⟨none, none⟩ 5 4 rfl rfl rfl).1,
   (c8_badge_defaults iosEnv ⟨none, none⟩ 5 4 rfl rfl rfl).2.2.1,
   (c8_badge_defaults iosEnv ⟨none, none⟩ 5 4 rfl rfl rfl).2.2.2
     androidEnv rfl rfl rfl⟩

/-- C9: `onNotification(handler)` and `onError(handler)` each subscribe
the handler under their fixed event identifier and return a deregistration
function; when the event fires, the handler receives the domain payload
first and the originating `$event` metadata second, and the deregistration
function removes exactly the listener that was added. -/
theorem c9_event_relay {α : Type} (sc : Relay.Scope α)
    (handler : String → Relay.EventMeta → α) (meta : Relay.EventMeta)
    (payload : String)
    (hwf : ∀ x ∈ sc.listeners, x.1 < sc.nextId) :
    Relay.fire (Relay.onNotification sc handler).1
        Relay.onNotificationEvent meta payload
        = Relay.fire sc Relay.onNotificationEvent meta payload
            ++ [handler payload meta]
      ∧ Relay.fire (Relay.onError sc handler).1 Relay.onErrorEvent meta payload
        = Relay.fire sc Relay.onErrorEvent meta payload ++ [handler payload meta]
      ∧ (Relay.scopeOff (Relay.onNotification sc handler).1
            (Relay.onNotification sc handler).2).listeners = sc.listeners
      ∧ (Relay.scopeOff (Relay.onError sc handler).1
            (Relay.onError sc handler).2).listeners = sc.listeners := by
  refine ⟨?_, ?_, ?_, ?_⟩ <;>
    simp [Relay.fire, Relay.onNotification, Relay.onError, Relay.listenTo,
      Relay.scopeOn, Relay.scopeOff, List.filter_append]
  all_goals intro a b l hmem
  all_goals exact Nat.ne_of_lt (hwf (a, b, l) hmem)

/-- C9 witness: firing the notification event on an empty scope after
subscribing one handler delivers the payload first and the metadata
second. -/
theorem c9_event_relay_witness :
    Relay.fire
        (Relay.onNotification (⟨[], 0⟩ : Relay.Scope (String × Relay.EventMeta))
          (fun p m => (p, m))).1
        Relay.onNotificationEvent ⟨Relay.onNotificationEvent, 0⟩ "payload"
      = Relay.fire (⟨[], 0⟩ : Relay.Scope (String × Relay.EventMeta))
          Relay.onNotificationEvent ⟨Relay.onNotificationEvent, 0⟩ "payload"
          ++ [("payload", ⟨Relay.onNotificationEvent, 0⟩)] :=
  (c9_event_relay ⟨[], 0⟩ (fun p m => (p, m)) ⟨Relay.onNotificationEvent, 0⟩
    "payload" (by simp)).1

/-- C10 counterexample: in `part_000` on Android,
`incrementBadgeNumber(1)` sets the OS badge to `0` (= n - 1) but resolves
with `-1`, not with `n - 1 = 0` as claimed: the premature fallback
resolution of `setBadgeNumber`'s promise wins over `resolve(number)`. -/
theorem c10_counterexample :
    PartA.incrementBadgeNumber androidEnv ⟨none, none⟩ (some 1)
        = ⟨Except.ok (-1), ⟨none, none⟩, [NativeCall.setBadge 0]⟩
      ∧ (PartA.incrementBadgeNumber androidEnv ⟨none, none⟩ (some 1)).result
        ≠ Except.ok 0 :=
  ⟨by decide, by decide⟩

/-- C10 amended: in `part_000` on Android (native set succeeding),
`incrementBadgeNumber(n)` substitutes the sentinel `-1` for the unread
current badge and natively sets the badge to `n - 1`, but the call
resolves with `-1` rather than `n - 1`. -/
theorem c10_android_increment (env : Env) (s : PushState) (n : Int)
    (hios : env.platformIs "ios" = false)
    (hand : env.platformIs "android" = true)
    (hset : env.setBadgeResult = Except.ok ()) :
    PartA.incrementBadgeNumber env s (some n)
      = ⟨Except.ok (-1), s, [NativeCall.setBadge (n - 1)]⟩ := by
  have h1 : (-1 : Int) + n = n - 1 := by ring
  simp [PartA.incrementBadgeNumber, PartA.getBadgeNumber, PartA.setBadgeNumber,
    checkPlatform, checkPlatforms, settleCell, hios, hand, hset, h1]

/-- C10 witness: the Android increment at `n = 1`. -/
theorem c10_android_increment_witness :
    PartA.incrementBadgeNumber androidEnv ⟨none, none⟩ (some 1)
      = ⟨Except.ok (-1), ⟨none, none⟩, [NativeCall.setBadge (1 - 1)]⟩ :=
  c10_android_increment androidEnv ⟨none, none⟩ 1 rfl rfl rfl

/-- C4 witness: the Unregistered rejection at a concrete state and
environment. -/
theorem c4_unregistered_ops_reject_witness :
    PartA.subscribe iosEnv ⟨none, none⟩ "news"
        = ⟨Except.error Err.notInitialized, ⟨none, none⟩, []⟩
      ∧ PS.getBadgeNumber iosEnv ⟨none, none⟩
        = ⟨Except.error Err.notInitialized, ⟨none, none⟩, []⟩ :=
  ⟨(c4_unregistered_ops_reject iosEnv ⟨none, none⟩ "news" none rfl rfl).1,
   (c4_unregistered_ops_reject iosEnv ⟨none, none⟩ "news" none rfl rfl).2.2.2.1⟩
